import Mathlib

/-
Verification development for the MLMicroserviceTemplate repository
(server/main.py and model/model.py).

The embedding mirrors the Python source:
  * `create_prediction`, `check_status`, `prediction_exception_handler`,
    `initial_startup`, `on_shutdown` come from server/main.py;
  * `predict` and `init` come from model/model.py;
  * the two mutually recursive background loops `register_model_to_server`
    and `ping_server` from server/main.py are embedded as a fuel-indexed
    step machine `runLoop` with an explicit phase, an oracle giving the
    outcome of the n-th network request, a time-indexed shutdown flag, and
    an explicit counter of the call-stack frames accumulated by the
    mutual hand-off calls.

The field `Settings.ready_to_predict` lives in server/dependency.py, which
is not part of the two source files; modelled from the spec: the spec's
ReadinessState.readyToPredict boolean is passed to each endpoint as an
explicit `ready_to_predict : Bool` argument.  All decision logic gated on
it is in server/main.py itself.
-/

/-- Fixed retry and heartbeat interval in seconds: `WAIT_TIME = 10` in
server/main.py. -/
def WAIT_TIME : Nat := 10

/-- A file handle as produced by `open('../images/' + filename, 'r')`;
the model only ever reads its `.name`. -/
structure ImageFile where
  name : String
deriving DecidableEq

/-- model.py `predict(image_file)`: opens the image by name and returns the
fixed placeholder result dictionary. -/
def predict (image_file : ImageFile) : List (String × String) :=
  [("someResultCategory", "actualResultValue")]

/-- Mutations of the process-wide lifecycle state performed by the startup
and shutdown handlers in server/main.py.  `constructBackgroundTask` records
that `BackgroundTask(init)` merely constructs a starlette task object: the
object is never attached to a response and never awaited, so the wrapped
function is never executed. -/
inductive BackgroundJob
  | registerModelToServer
  | modelInit
deriving DecidableEq

/-- One observable action of a lifecycle hook in server/main.py. -/
inductive LifecycleAction
  | loadDotenv
  | poolSubmit (job : BackgroundJob)
  | constructBackgroundTask (job : BackgroundJob)
  | setReadyToPredict (b : Bool)
  | setShutdown (b : Bool)
  | poolShutdown
deriving DecidableEq

/-- model.py `init()`: modelled by the list of lifecycle-state mutations it
performs.  The body is a placeholder `time.sleep(1)`; it mutates nothing
and in particular never sets `ready_to_predict`. -/
def init : List LifecycleAction := []

/-- server/main.py `initial_startup` (the `startup` hook), as the ordered
list of actions it performs: it loads the environment, submits
`register_model_to_server` to the thread pool, and constructs (without
running) `BackgroundTask(init)`.  No statement in the function assigns
`settings.ready_to_predict`. -/
def initial_startup : List LifecycleAction :=
  [LifecycleAction.loadDotenv,
   LifecycleAction.poolSubmit BackgroundJob.registerModelToServer,
   LifecycleAction.constructBackgroundTask BackgroundJob.modelInit]

/-- server/main.py `on_shutdown` (the `shutdown` hook), as the ordered list
of actions it performs. -/
def on_shutdown : List LifecycleAction :=
  [LifecycleAction.setReadyToPredict false,
   LifecycleAction.setShutdown true,
   LifecycleAction.poolShutdown]

/-- The `fastapi.HTTPException` value built by `create_prediction`. -/
structure HTTPException where
  status_code : Nat
  detail : String
deriving DecidableEq

/-- Value returned by the `/predict` endpoint body: either the
`HTTPException` object it returns on the error paths, or the
`{"result": ...}` payload wrapping the model's prediction. -/
inductive PredictResponse
  | exc (e : HTTPException)
  | result (r : List (String × String))
deriving DecidableEq

/-- server/main.py `create_prediction` (`POST /predict`).  The filesystem
visible to `open` is modelled as `fs : String → Option ImageFile`, applied
to the exact path `'../images/' + filename` the code opens; `none` models
the `IOError` branch.  The second component of the result records whether
the model's `predict` was invoked. -/
def create_prediction (ready_to_predict : Bool) (fs : String → Option ImageFile)
    (filename : String) : PredictResponse × Bool :=
  if !ready_to_predict then
    (PredictResponse.exc
      ⟨503, "Model has not been configured. Please run initial startup before attempting to receive predictions."⟩,
     false)
  else
    match fs ("../images/" ++ filename) with
    | none =>
      (PredictResponse.exc
        ⟨400, "Unable to open image file. Provided filename can not be found on server."⟩,
       false)
    | some image_file => (PredictResponse.result (predict image_file), true)

/-- The not-ready signal raised by `check_status`.  The class itself lives
in server/dependency.py (not among the source files); modelled from the
spec: a bare "not ready" error with no payload. -/
inductive PredictionException
  | mk
deriving DecidableEq

/-- A JSON response together with its HTTP status code, as produced for
`GET /status`. -/
structure JSONResponse where
  status_code : Nat
  status : String
  detail : String
deriving DecidableEq

/-- server/main.py `prediction_exception_handler`: maps a
`PredictionException` to the fixed 503 "not ready" JSON response. -/
def prediction_exception_handler (exc : PredictionException) : JSONResponse :=
  ⟨503, "failure", "Model is not ready to receive predictions."⟩

/-- server/main.py `check_status` (`GET /status`): raises
`PredictionException` when not ready, otherwise returns the success
payload. -/
def check_status (ready_to_predict : Bool) : Except PredictionException (String × String) :=
  if !ready_to_predict then Except.error PredictionException.mk
  else Except.ok ("success", "Model ready to receive prediction requests.")

/-- The HTTP response actually seen by a caller of `GET /status`: a raised
`PredictionException` is rendered by `prediction_exception_handler`, a
normal return is rendered with status 200. -/
def check_status_http (ready_to_predict : Bool) : JSONResponse :=
  match check_status ready_to_predict with
  | Except.error e => prediction_exception_handler e
  | Except.ok (s, d) => ⟨200, s, d⟩

/-- The claim that `ready_to_predict` is set to `true` at some point of the
startup sequence (including anything `init` itself does). -/
def startupSetsReady : Prop :=
  LifecycleAction.setReadyToPredict true ∈ initial_startup ++ init

instance : Decidable startupSetsReady := by
  unfold startupSetsReady
  infer_instance

/-- C1: the claim requires startup to run model init first, set
ReadinessState.readyToPredict on its completion, and only then schedule the
Registration Client.  Evaluating `initial_startup` shows the opposite:
the registration job is submitted to the pool as the first scheduled work,
the init task is only constructed afterwards and never submitted to the
pool, and no action of startup (nor of `init` itself) ever sets
`ready_to_predict` to true — although the function's own docstring promises
that `ready_to_predict` will be updated when `init()` completes. -/
theorem initial_startup_registers_first_and_never_sets_ready :
    initial_startup.head? = some LifecycleAction.loadDotenv
    ∧ initial_startup.get? 1 = some (LifecycleAction.poolSubmit BackgroundJob.registerModelToServer)
    ∧ initial_startup.get? 2 = some (LifecycleAction.constructBackgroundTask BackgroundJob.modelInit)
    ∧ LifecycleAction.poolSubmit BackgroundJob.modelInit ∉ initial_startup
    ∧ ¬ startupSetsReady := by
  refine ⟨rfl, rfl, rfl, ?_, ?_⟩ <;> decide

/-- C2: while readiness is false, `POST /predict` returns the 503
`HTTPException` and never invokes the model, for every filesystem and every
filename. -/
theorem create_prediction_not_ready_503_no_model_call
    (fs : String → Option ImageFile) (filename : String) :
    create_prediction false fs filename =
      (PredictResponse.exc
        ⟨503, "Model has not been configured. Please run initial startup before attempting to receive predictions."⟩,
       false) := rfl

/-- C3: while ready, a filename whose resolved path `'../images/' + filename`
cannot be opened makes `POST /predict` return the 400 `HTTPException`
without invoking the model. -/
theorem create_prediction_missing_file_400_no_model_call
    (fs : String → Option ImageFile) (filename : String)
    (h : fs ("../images/" ++ filename) = none) :
    create_prediction true fs filename =
      (PredictResponse.exc
        ⟨400, "Unable to open image file. Provided filename can not be found on server."⟩,
       false) := by
  unfold create_prediction
  simp [h]

/-- Witness for C3 at the empty filesystem and the filename "missing.png". -/
theorem create_prediction_missing_file_400_no_model_call_witness :
    create_prediction true (fun _ => none) ("missing.png") =
      (PredictResponse.exc
        ⟨400, "Unable to open image file. Provided filename can not be found on server."⟩,
       false) :=
  create_prediction_missing_file_400_no_model_call (fun _ => none) ("missing.png") rfl

/-- C4: `GET /status` yields a success (200) response iff readiness is
true, and when readiness is false the response is exactly the fixed 503
"not ready" JSON produced by `prediction_exception_handler`. -/
theorem check_status_success_iff_ready (ready_to_predict : Bool) :
    ((check_status_http ready_to_predict).status_code = 200 ↔ ready_to_predict = true)
    ∧ (ready_to_predict = false →
        check_status_http ready_to_predict =
          ⟨503, "failure", "Model is not ready to receive predictions."⟩) := by
  cases ready_to_predict <;> simp [check_status_http, check_status, prediction_exception_handler]

/-- Witness for C4: with readiness false the status endpoint answers the
fixed 503 response, and 200 is equivalent to readiness. -/
theorem check_status_success_iff_ready_witness :
    check_status_http false =
      ⟨503, "failure", "Model is not ready to receive predictions."⟩ :=
  (check_status_success_iff_ready false).2 rfl

/-- Outcome of one network request made by the background loops, as the
Python exception structure distinguishes them: `ok` is a response whose
`raise_for_status()` passes; `netFail` is a caught
`requests.exceptions.ConnectionError` or `Timeout`; `httpError` is a
response with an error status, whose `raise_for_status()` raises the
uncaught `requests.exceptions.HTTPError`. -/
inductive Outcome
  | ok
  | netFail
  | httpError
deriving DecidableEq

/-- Which loop issued a network request. -/
inductive Kind
  | reg
  | ping
deriving DecidableEq

/-- Observable event of a background-loop execution: a network attempt
(tagged with the value of the `connected` flag right after the attempt is
handled) or a `time.sleep`. -/
inductive Event
  | attempt (k : Kind) (o : Outcome) (connAfter : Bool)
  | sleep (seconds : Nat)
deriving DecidableEq

/-- How a bounded execution of the background loops ended. -/
inductive RunResult
  | finished
  | crashed
  | outOfFuel
deriving DecidableEq

/-- Result of running the background loops: the event trace, how the run
ended, the final value of the `connected` flag, and the number of
call-stack frames accumulated by the mutual `register_model_to_server` /
`ping_server` hand-off calls (each hand-off is a fresh Python call that is
never returned from while the loops keep running). -/
structure RunOut where
  trace : List Event
  result : RunResult
  connected : Bool
  depth : Nat
deriving DecidableEq

/-- Prepend events to a run's trace. -/
def consEvents (es : List Event) (r : RunOut) : RunOut :=
  ⟨es ++ r.trace, r.result, r.connected, r.depth⟩

/-- Which of the two mutually recursive loop bodies is executing. -/
inductive Phase
  | registering
  | pinging
deriving DecidableEq

/-- Fuel-indexed execution of the two background loops of server/main.py.
`oracle t` is the outcome of the t-th network request; `sh t` is the value
of the global `shutdown` flag as read at the t-th loop boundary; `c` is the
global `connected` flag; `d` counts the stack frames created by the mutual
hand-off calls.

Phase `registering` mirrors `register_model_to_server`:
`while not connected and not shutdown:` POST /model/register; on success
set `connected = True`; on ConnectionError/Timeout sleep `WAIT_TIME` and
retry; on an HTTP error status `raise_for_status()` raises and nothing
catches it.  After the loop, `if not shutdown: ping_server(...)` — a call,
not a return.

Phase `pinging` mirrors `ping_server`: `while connected and not shutdown:`
GET /; on success sleep `WAIT_TIME`; on ConnectionError/Timeout set
`connected = False` (no sleep); on an HTTP error status the uncaught raise.
After the loop, `if not shutdown: register_model_to_server(...)`. -/
def runLoop (oracle : Nat → Outcome) (sh : Nat → Bool) :
    Nat → Phase → Bool → Nat → Nat → RunOut
  | 0, _, c, _, d => ⟨[], RunResult.outOfFuel, c, d⟩
  | fuel+1, Phase.registering, c, t, d =>
    if !c && !(sh t) then
      match oracle t with
      | Outcome.ok =>
        consEvents [Event.attempt Kind.reg Outcome.ok true]
          (runLoop oracle sh fuel Phase.registering true (t+1) d)
      | Outcome.netFail =>
        consEvents [Event.attempt Kind.reg Outcome.netFail c, Event.sleep WAIT_TIME]
          (runLoop oracle sh fuel Phase.registering c (t+1) d)
      | Outcome.httpError =>
        ⟨[Event.attempt Kind.reg Outcome.httpError c], RunResult.crashed, c, d⟩
    else if !(sh t) then
      runLoop oracle sh fuel Phase.pinging c t (d+1)
    else ⟨[], RunResult.finished, c, d⟩
  | fuel+1, Phase.pinging, c, t, d =>
    if c && !(sh t) then
      match oracle t with
      | Outcome.ok =>
        consEvents [Event.attempt Kind.ping Outcome.ok c, Event.sleep WAIT_TIME]
          (runLoop oracle sh fuel Phase.pinging c (t+1) d)
      | Outcome.netFail =>
        consEvents [Event.attempt Kind.ping Outcome.netFail false]
          (runLoop oracle sh fuel Phase.pinging false (t+1) d)
      | Outcome.httpError =>
        ⟨[Event.attempt Kind.ping Outcome.httpError c], RunResult.crashed, c, d⟩
    else if !(sh t) then
      runLoop oracle sh fuel Phase.registering c t (d+1)
    else ⟨[], RunResult.finished, c, d⟩

/-- server/main.py `register_model_to_server`, entered with the given
`connected` flag at loop boundary `t` and `d` hand-off frames below it. -/
def register_model_to_server (oracle : Nat → Outcome) (sh : Nat → Bool)
    (fuel : Nat) (connected : Bool) (t d : Nat) : RunOut :=
  runLoop oracle sh fuel Phase.registering connected t d

/-- server/main.py `ping_server`, entered with the given `connected` flag
at loop boundary `t` and `d` hand-off frames below it. -/
def ping_server (oracle : Nat → Outcome) (sh : Nat → Bool)
    (fuel : Nat) (connected : Bool) (t d : Nat) : RunOut :=
  runLoop oracle sh fuel Phase.pinging connected t d

/-- Number of network attempts in a trace. -/
def countAttempts : List Event → Nat
  | [] => 0
  | Event.attempt _ _ _ :: rest => countAttempts rest + 1
  | Event.sleep _ :: rest => countAttempts rest

/-- Unfolding equation for one `registering` step. -/
theorem runLoop_reg_step (oracle : Nat → Outcome) (sh : Nat → Bool)
    (fuel : Nat) (c : Bool) (t d : Nat) :
    runLoop oracle sh (fuel+1) Phase.registering c t d =
      if !c && !(sh t) then
        match oracle t with
        | Outcome.ok =>
          consEvents [Event.attempt Kind.reg Outcome.ok true]
            (runLoop oracle sh fuel Phase.registering true (t+1) d)
        | Outcome.netFail =>
          consEvents [Event.attempt Kind.reg Outcome.netFail c, Event.sleep WAIT_TIME]
            (runLoop oracle sh fuel Phase.registering c (t+1) d)
        | Outcome.httpError =>
          ⟨[Event.attempt Kind.reg Outcome.httpError c], RunResult.crashed, c, d⟩
      else if !(sh t) then
        runLoop oracle sh fuel Phase.pinging c t (d+1)
      else ⟨[], RunResult.finished, c, d⟩ := rfl

/-- Unfolding equation for one `pinging` step. -/
theorem runLoop_ping_step (oracle : Nat → Outcome) (sh : Nat → Bool)
    (fuel : Nat) (c : Bool) (t d : Nat) :
    runLoop oracle sh (fuel+1) Phase.pinging c t d =
      if c && !(sh t) then
        match oracle t with
        | Outcome.ok =>
          consEvents [Event.attempt Kind.ping Outcome.ok c, Event.sleep WAIT_TIME]
            (runLoop oracle sh fuel Phase.pinging c (t+1) d)
        | Outcome.netFail =>
          consEvents [Event.attempt Kind.ping Outcome.netFail false]
            (runLoop oracle sh fuel Phase.pinging false (t+1) d)
        | Outcome.httpError =>
          ⟨[Event.attempt Kind.ping Outcome.httpError c], RunResult.crashed, c, d⟩
      else if !(sh t) then
        runLoop oracle sh fuel Phase.registering c t (d+1)
      else ⟨[], RunResult.finished, c, d⟩ := rfl

/-- With the coordinator unreachable and no shutdown, the registration
loop makes exactly one attempt per unit of fuel: no retry limit. -/
theorem countAttempts_constNetFail (fuel : Nat) : ∀ t d,
    countAttempts (register_model_to_server (fun _ => Outcome.netFail)
      (fun _ => false) fuel false t d).trace = fuel := by
  induction fuel with
  | zero => intro t d; rfl
  | succ n ih =>
    intro t d
    show countAttempts (runLoop _ _ (n+1) Phase.registering false t d).trace = n + 1
    rw [runLoop_reg_step]
    simp only [Bool.not_false, Bool.and_self, if_pos rfl] at *
    simpa [consEvents, countAttempts] using ih (t+1) d

/-- C6: the registration client, on each network failure, emits exactly a
failed attempt followed by a fixed `WAIT_TIME` (10 s) sleep and then is
back at the same loop with the same backoff; with the coordinator
permanently unreachable it makes one attempt per unit of fuel (no retry
limit, no backoff change); and at a loop boundary where the shutdown flag
reads true it exits at once with no further action (empty trace). -/
theorem register_fixed_backoff_unbounded_retry (oracle : Nat → Outcome) (fuel t d : Nat) :
    (∀ sh : Nat → Bool, sh t = false → oracle t = Outcome.netFail →
      register_model_to_server oracle sh (fuel+1) false t d =
        consEvents [Event.attempt Kind.reg Outcome.netFail false, Event.sleep WAIT_TIME]
          (register_model_to_server oracle sh fuel false (t+1) d))
    ∧ countAttempts (register_model_to_server (fun _ => Outcome.netFail)
        (fun _ => false) fuel false t d).trace = fuel
    ∧ (∀ sh : Nat → Bool, sh t = true →
      register_model_to_server oracle sh (fuel+1) false t d =
        ⟨[], RunResult.finished, false, d⟩) := by
  refine ⟨?_, countAttempts_constNetFail fuel t d, ?_⟩
  · intro sh h1 h2
    rw [register_model_to_server, register_model_to_server, runLoop_reg_step]
    simp [h1, h2]
  · intro sh h1
    rw [register_model_to_server, runLoop_reg_step]
    simp [h1]

/-- Witness for C6 at a coordinator that always refuses connections. -/
theorem register_fixed_backoff_unbounded_retry_witness :
    (register_model_to_server (fun _ => Outcome.netFail) (fun _ => false) 3 false 0 0 =
      consEvents [Event.attempt Kind.reg Outcome.netFail false, Event.sleep WAIT_TIME]
        (register_model_to_server (fun _ => Outcome.netFail) (fun _ => false) 2 false 1 0))
    ∧ countAttempts (register_model_to_server (fun _ => Outcome.netFail)
        (fun _ => false) 2 false 0 0).trace = 2
    ∧ register_model_to_server (fun _ => Outcome.netFail) (fun _ => true) 3 false 0 0 =
        ⟨[], RunResult.finished, false, 0⟩ :=
  ⟨(register_fixed_backoff_unbounded_retry (fun _ => Outcome.netFail) 2 0 0).1
      (fun _ => false) rfl rfl,
   (register_fixed_backoff_unbounded_retry (fun _ => Outcome.netFail) 2 0 0).2.1,
   (register_fixed_backoff_unbounded_retry (fun _ => Outcome.netFail) 2 0 0).2.2
      (fun _ => true) rfl⟩

/-- Does the run begin with a registration attempt, before any sleep? -/
def headIsRegAttempt (r : RunOut) : Bool :=
  match r.trace.head? with
  | some (Event.attempt Kind.reg _ _) => true
  | _ => false

/-- C7: a liveness-probe network failure sets `connected := false` and
hands control to `register_model_to_server` with no sleep in between; a
registration run entered while shutdown is unset begins directly with a
registration attempt (no sleep precedes the first re-registration
attempt); and when the shutdown flag reads true at a probe-loop boundary
the monitor exits without handing control to registration (empty trace,
`finished`). -/
theorem ping_failure_hands_to_registration (oracle : Nat → Outcome) (fuel t d : Nat) :
    (∀ sh : Nat → Bool, sh t = false → sh (t+1) = false → oracle t = Outcome.netFail →
      ping_server oracle sh (fuel+2) true t d =
        consEvents [Event.attempt Kind.ping Outcome.netFail false]
          (register_model_to_server oracle sh fuel false (t+1) (d+1)))
    ∧ (∀ sh : Nat → Bool, sh t = false →
      headIsRegAttempt (register_model_to_server oracle sh (fuel+1) false t d) = true)
    ∧ (∀ (sh : Nat → Bool) (c : Bool), sh t = true →
      ping_server oracle sh (fuel+1) c t d = ⟨[], RunResult.finished, c, d⟩) := by
  refine ⟨?_, ?_, ?_⟩
  · intro sh h1 h2 h3
    have key : runLoop oracle sh (fuel+1) Phase.pinging false (t+1) d =
        runLoop oracle sh fuel Phase.registering false (t+1) (d+1) := by
      rw [runLoop_ping_step]
      simp [h2]
    rw [ping_server, register_model_to_server]
    rw [show fuel + 2 = (fuel + 1) + 1 from rfl, runLoop_ping_step]
    simp only [h1, h3, Bool.not_false, Bool.and_self, if_true, Bool.true_and, if_pos]
    rw [key]
  · intro sh h1
    rw [register_model_to_server, runLoop_reg_step]
    cases h2 : oracle t <;> simp [h1, h2, headIsRegAttempt, consEvents]
  · intro sh c h1
    rw [ping_server, runLoop_ping_step]
    simp [h1]

/-- Witness for C7 at a probe that fails with a connection error. -/
theorem ping_failure_hands_to_registration_witness :
    (ping_server (fun _ => Outcome.netFail) (fun _ => false) 3 true 0 0 =
      consEvents [Event.attempt Kind.ping Outcome.netFail false]
        (register_model_to_server (fun _ => Outcome.netFail) (fun _ => false) 1 false 1 1))
    ∧ headIsRegAttempt (register_model_to_server (fun _ => Outcome.netFail)
        (fun _ => false) 2 false 0 0) = true
    ∧ ping_server (fun _ => Outcome.netFail) (fun _ => true) 2 true 0 0 =
        ⟨[], RunResult.finished, true, 0⟩ :=
  ⟨(ping_failure_hands_to_registration (fun _ => Outcome.netFail) 1 0 0).1
      (fun _ => false) rfl rfl rfl,
   (ping_failure_hands_to_registration (fun _ => Outcome.netFail) 1 0 0).2.1
      (fun _ => false) rfl,
   (ping_failure_hands_to_registration (fun _ => Outcome.netFail) 1 0 0).2.2
      (fun _ => true) true rfl⟩

/-- C8: the shutdown hook performs, in order, readiness off, shutdown flag
on, pool stop; and at any loop boundary of either background loop where
the shutdown flag reads true, the whole remaining run is empty — no
further registration or probe network call is ever issued. -/
theorem shutdown_orders_flags_and_stops_loops :
    (on_shutdown.get? 0 = some (LifecycleAction.setReadyToPredict false)
     ∧ on_shutdown.get? 1 = some (LifecycleAction.setShutdown true)
     ∧ on_shutdown.get? 2 = some LifecycleAction.poolShutdown
     ∧ on_shutdown.length = 3)
    ∧ (∀ (oracle : Nat → Outcome) (sh : Nat → Bool) (fuel : Nat) (ph : Phase)
        (c : Bool) (t d : Nat), sh t = true →
        runLoop oracle sh (fuel+1) ph c t d = ⟨[], RunResult.finished, c, d⟩) := by
  refine ⟨⟨rfl, rfl, rfl, rfl⟩, ?_⟩
  intro oracle sh fuel ph c t d h1
  cases ph
  · rw [runLoop_reg_step]
    simp [h1]
  · rw [runLoop_ping_step]
    simp [h1]

/-- Witness for C8: with the shutdown flag set, a registering run issues
no network call at all. -/
theorem shutdown_orders_flags_and_stops_loops_witness :
    runLoop (fun _ => Outcome.ok) (fun _ => true) 5 Phase.registering false 0 0 =
      ⟨[], RunResult.finished, false, 0⟩ :=
  shutdown_orders_flags_and_stops_loops.2 (fun _ => Outcome.ok) (fun _ => true) 4
    Phase.registering false 0 0 rfl

/-- C9: an HTTP error status from the coordinator is re-raised by
`raise_for_status()` and caught by neither loop: the run ends immediately
as `crashed`, the trace stops at the fatal attempt (no retry, no
re-registration, no later attempt of any kind), and the `connected` flag
is frozen at its prior value — after a registration-phase crash it stays
false forever, so the service can never become Connected again. -/
theorem http_error_status_kills_background_thread (oracle : Nat → Outcome)
    (sh : Nat → Bool) (fuel t d : Nat) :
    (sh t = false → oracle t = Outcome.httpError →
      register_model_to_server oracle sh (fuel+1) false t d =
        ⟨[Event.attempt Kind.reg Outcome.httpError false], RunResult.crashed, false, d⟩)
    ∧ (sh t = false → oracle t = Outcome.httpError →
      ping_server oracle sh (fuel+1) true t d =
        ⟨[Event.attempt Kind.ping Outcome.httpError true], RunResult.crashed, true, d⟩) := by
  constructor
  · intro h1 h2
    rw [register_model_to_server, runLoop_reg_step]
    simp [h1, h2]
  · intro h1 h2
    rw [ping_server, runLoop_ping_step]
    simp [h1, h2]

/-- Witness for C9 at a coordinator that answers every request with an
HTTP error status. -/
theorem http_error_status_kills_background_thread_witness :
    (register_model_to_server (fun _ => Outcome.httpError) (fun _ => false) 1 false 0 0 =
      ⟨[Event.attempt Kind.reg Outcome.httpError false], RunResult.crashed, false, 0⟩)
    ∧ (ping_server (fun _ => Outcome.httpError) (fun _ => false) 1 true 0 0 =
      ⟨[Event.attempt Kind.ping Outcome.httpError true], RunResult.crashed, true, 0⟩) :=
  ⟨(http_error_status_kills_background_thread (fun _ => Outcome.httpError)
      (fun _ => false) 0 0 0).1 rfl rfl,
   (http_error_status_kills_background_thread (fun _ => Outcome.httpError)
      (fun _ => false) 0 0 0).2 rfl rfl⟩

/-- The hand-off frame counter never decreases along a run: a frame opened
by one of the mutual `register_model_to_server` / `ping_server` calls is
never released while the loops keep running. -/
theorem runLoop_depth_mono (oracle : Nat → Outcome) (sh : Nat → Bool) :
    ∀ (fuel : Nat) (ph : Phase) (c : Bool) (t d : Nat),
      d ≤ (runLoop oracle sh fuel ph c t d).depth := by
  intro fuel
  induction fuel with
  | zero => intro ph c t d; exact Nat.le_refl d
  | succ n ih =>
    intro ph c t d
    cases ph
    · rw [runLoop_reg_step]
      cases hst : sh t
      · cases hc : c
        · cases ho : oracle t
          · simpa [hst, consEvents] using ih Phase.registering true (t+1) d
          · simpa [hst, consEvents] using ih Phase.registering false (t+1) d
          · simp [hst]
        · simpa [hst] using Nat.le_trans (Nat.le_succ d) (ih Phase.pinging true t (d+1))
      · simp [hst]
    · rw [runLoop_ping_step]
      cases hst : sh t
      · cases hc : c
        · simpa [hst] using Nat.le_trans (Nat.le_succ d) (ih Phase.registering false t (d+1))
        · cases ho : oracle t
          · simpa [hst, consEvents] using ih Phase.pinging true (t+1) d
          · simpa [hst, consEvents] using ih Phase.pinging false (t+1) d
          · simp [hst]
      · simp [hst]

/-- An oracle describing a coordinator that accepts every registration and
then drops the following probe: one disconnect-and-reconnect cycle per two
network attempts. -/
def altOracle : Nat → Outcome :=
  fun t => if t % 2 = 0 then Outcome.ok else Outcome.netFail

/-- Against `altOracle`, every four units of fuel complete one
disconnect-and-reconnect cycle and add exactly two hand-off stack frames. -/
theorem altOracle_depth_growth :
    ∀ (k : Nat), ∀ (t d : Nat), t % 2 = 0 →
      (register_model_to_server altOracle (fun _ => false) (4*k) false t d).depth
        = d + 2*k := by
  intro k
  induction k with
  | zero =>
    intro t d ht
    simp [register_model_to_server, runLoop]
  | succ n ih =>
    intro t d ht
    have ho0 : altOracle t = Outcome.ok := by simp [altOracle, ht]
    have ht1 : (t+1) % 2 = 1 := by omega
    have ho1 : altOracle (t+1) = Outcome.netFail := by simp [altOracle, ht1]
    have ht2 : (t+2) % 2 = 0 := by omega
    have h4 : 4 * (n+1) = 4*n+1+1+1+1 := by ring
    have s1 : (runLoop altOracle (fun _ => false) (4*n+1+1+1+1) Phase.registering false t d).depth
        = (runLoop altOracle (fun _ => false) (4*n+1+1+1) Phase.registering true (t+1) d).depth := by
      rw [runLoop_reg_step]
      simp [ho0, consEvents]
    have s2 : (runLoop altOracle (fun _ => false) (4*n+1+1+1) Phase.registering true (t+1) d).depth
        = (runLoop altOracle (fun _ => false) (4*n+1+1) Phase.pinging true (t+1) (d+1)).depth := by
      rw [runLoop_reg_step]
      simp
    have s3 : (runLoop altOracle (fun _ => false) (4*n+1+1) Phase.pinging true (t+1) (d+1)).depth
        = (runLoop altOracle (fun _ => false) (4*n+1) Phase.pinging false (t+1+1) (d+1)).depth := by
      rw [runLoop_ping_step]
      simp [ho1, consEvents]
    have s4 : (runLoop altOracle (fun _ => false) (4*n+1) Phase.pinging false (t+1+1) (d+1)).depth
        = (runLoop altOracle (fun _ => false) (4*n) Phase.registering false (t+1+1) (d+1+1)).depth := by
      rw [runLoop_ping_step]
      simp
    have hrec := ih (t+1+1) (d+1+1) (by omega)
    rw [register_model_to_server] at hrec
    rw [register_model_to_server, h4, s1, s2, s3, s4, hrec]
    ring

/-- C10: the register/ping hand-off is a mutual call, not a loop return:
the frame counter never decreases along any run, and against a coordinator
that alternately accepts registration and drops the next probe, each
disconnect-and-reconnect cycle permanently adds two stack frames — the
depth grows without bound in the number of cycles. -/
theorem mutual_handoff_stack_depth_unbounded :
    (∀ (oracle : Nat → Outcome) (sh : Nat → Bool) (fuel : Nat) (ph : Phase)
        (c : Bool) (t d : Nat), d ≤ (runLoop oracle sh fuel ph c t d).depth)
    ∧ (∀ (k t d : Nat), t % 2 = 0 →
      (register_model_to_server altOracle (fun _ => false) (4*k) false t d).depth
        = d + 2*k) :=
  ⟨fun oracle sh => runLoop_depth_mono oracle sh, altOracle_depth_growth⟩

/-- Witness for C10: three cycles against the alternating coordinator cost
six permanently retained stack frames. -/
theorem mutual_handoff_stack_depth_unbounded_witness :
    0 ≤ (runLoop altOracle (fun _ => false) 12 Phase.registering false 0 0).depth
    ∧ (register_model_to_server altOracle (fun _ => false) (4*3) false 0 0).depth
        = 0 + 2*3 :=
  ⟨mutual_handoff_stack_depth_unbounded.1 altOracle (fun _ => false) 12
      Phase.registering false 0 0,
   mutual_handoff_stack_depth_unbounded.2 3 0 0 rfl⟩

/-- A network attempt of the background loops: which loop issued it, its
outcome, and the value of the `connected` flag right after it was
handled. -/
structure Att where
  kind : Kind
  out : Outcome
  conn : Bool
deriving DecidableEq

/-- The attempts of a trace, in order, dropping the sleeps. -/
def attemptsOf : List Event → List Att
  | [] => []
  | Event.attempt k o c :: rest => ⟨k, o, c⟩ :: attemptsOf rest
  | Event.sleep _ :: rest => attemptsOf rest

/-- The `connected` flag recorded after an attempt agrees with whether
that attempt succeeded. -/
def consistentAtt (a : Att) : Bool :=
  a.conn == decide (a.out = Outcome.ok)

/-- After a failed probe, the next attempt (if any) must be a
registration attempt — a failed probe is never directly retried. -/
def adjOK (a : Att) (rest : List Att) : Bool :=
  if a.kind == Kind.ping && a.out == Outcome.netFail then
    match rest with
    | [] => true
    | b :: _ => b.kind == Kind.reg
  else true

/-- Every attempt of the list is consistent, and a failed probe is always
followed by a registration attempt. -/
def goodAtt : List Att → Bool
  | [] => true
  | a :: rest => consistentAtt a && adjOK a rest && goodAtt rest

/-- The `connected` flag after the last attempt of the list, starting from
flag value `c0`. -/
def lastConnAux (c0 : Bool) : List Att → Bool
  | [] => c0
  | a :: rest => lastConnAux a.conn rest

/-- C5 as stated: a run leaves the service Connected iff its most recent
registration or probe attempt succeeded. -/
def connectedIffLastOk (r : RunOut) : Prop :=
  r.connected = true ↔ (attemptsOf r.trace).getLast?.map Att.out = some Outcome.ok

instance (r : RunOut) : Decidable (connectedIffLastOk r) := by
  unfold connectedIffLastOk
  infer_instance

/-- A registering run entered disconnected starts with a registration
attempt, if it makes any attempt at all. -/
theorem head_attempts_registering_false (oracle : Nat → Outcome) (sh : Nat → Bool)
    (fuel t d : Nat) :
    ((attemptsOf (runLoop oracle sh fuel Phase.registering false t d).trace).head?).map Att.kind
      ≠ some Kind.ping := by
  cases fuel with
  | zero => simp [runLoop, attemptsOf]
  | succ n =>
    rw [runLoop_reg_step]
    cases hst : sh t
    · cases ho : oracle t <;> simp [hst, ho, consEvents, attemptsOf]
    · simp [hst, attemptsOf]

/-- A pinging run entered disconnected immediately hands over to
registration: its first attempt, if any, is a registration attempt. -/
theorem head_attempts_pinging_false (oracle : Nat → Outcome) (sh : Nat → Bool)
    (fuel t d : Nat) :
    ((attemptsOf (runLoop oracle sh fuel Phase.pinging false t d).trace).head?).map Att.kind
      ≠ some Kind.ping := by
  cases fuel with
  | zero => simp [runLoop, attemptsOf]
  | succ n =>
    rw [runLoop_ping_step]
    cases hst : sh t
    · simpa [hst] using head_attempts_registering_false oracle sh n t (d+1)
    · simp [hst, attemptsOf]

/-- Main invariant of the background loops when no attempt draws an HTTP
error status: the recorded attempt list is good (flag matches the outcome
of the most recent attempt; a failed probe is followed by a registration
attempt, never by another probe), and the final flag is the one recorded
after the last attempt. -/
theorem runLoop_attempts_invariant (oracle : Nat → Outcome) (sh : Nat → Bool)
    (hno : ∀ u, oracle u ≠ Outcome.httpError) :
    ∀ (fuel : Nat) (ph : Phase) (c : Bool) (t d : Nat),
      goodAtt (attemptsOf (runLoop oracle sh fuel ph c t d).trace) = true
      ∧ (runLoop oracle sh fuel ph c t d).connected
          = lastConnAux c (attemptsOf (runLoop oracle sh fuel ph c t d).trace) := by
  intro fuel
  induction fuel with
  | zero => intro ph c t d; exact ⟨rfl, rfl⟩
  | succ n ih =>
    intro ph c t d
    cases ph
    · rw [runLoop_reg_step]
      cases hst : sh t
      · cases hc : c
        · cases ho : oracle t
          · obtain ⟨ihg, ihc⟩ := ih Phase.registering true (t+1) d
            constructor
            · simp [hst, ho, consEvents, attemptsOf, goodAtt, consistentAtt, adjOK, ihg]
            · simp [hst, ho, consEvents, attemptsOf, lastConnAux, ihc]
          · obtain ⟨ihg, ihc⟩ := ih Phase.registering false (t+1) d
            constructor
            · simp [hst, ho, consEvents, attemptsOf, goodAtt, consistentAtt, adjOK, ihg]
            · simp [hst, ho, consEvents, attemptsOf, lastConnAux, ihc]
          · exact absurd ho (hno t)
        · obtain ⟨ihg, ihc⟩ := ih Phase.pinging true t (d+1)
          constructor
          · simpa [hst] using ihg
          · simpa [hst] using ihc
      · constructor <;> simp [hst, attemptsOf, goodAtt, lastConnAux]
    · rw [runLoop_ping_step]
      cases hst : sh t
      · cases hc : c
        · obtain ⟨ihg, ihc⟩ := ih Phase.registering false t (d+1)
          constructor
          · simpa [hst] using ihg
          · simpa [hst] using ihc
        · cases ho : oracle t
          · obtain ⟨ihg, ihc⟩ := ih Phase.pinging true (t+1) d
            constructor
            · simp [hst, ho, consEvents, attemptsOf, goodAtt, consistentAtt, adjOK, ihg]
            · simp [hst, ho, consEvents, attemptsOf, lastConnAux, ihc]
          · obtain ⟨ihg, ihc⟩ := ih Phase.pinging false (t+1) d
            have hhead := head_attempts_pinging_false oracle sh n (t+1) d
            have hcons : consistentAtt ⟨Kind.ping, Outcome.netFail, false⟩ = true := by
              simp [consistentAtt]
            have hadj : adjOK ⟨Kind.ping, Outcome.netFail, false⟩
                (attemptsOf (runLoop oracle sh n Phase.pinging false (t+1) d).trace) = true := by
              unfold adjOK
              cases hL : attemptsOf (runLoop oracle sh n Phase.pinging false (t+1) d).trace with
              | nil => simp
              | cons b rest =>
                cases hk : b.kind
                · simp [hk]
                · exact absurd (by simp [hL, hk]) hhead
            constructor
            · simp [hst, ho, consEvents, attemptsOf, goodAtt, hcons, hadj, ihg]
            · simp [hst, ho, consEvents, attemptsOf, lastConnAux, ihc]
          · exact absurd ho (hno t)
      · constructor <;> simp [hst, attemptsOf, goodAtt, lastConnAux]

/-- In a good attempt list every attempt is consistent. -/
theorem goodAtt_consistent : ∀ (L : List Att), goodAtt L = true →
    ∀ a ∈ L, consistentAtt a = true := by
  intro L
  induction L with
  | nil => intro _ a ha; exact absurd ha (List.not_mem_nil a)
  | cons b rest ih =>
    intro hg a ha
    simp only [goodAtt, Bool.and_eq_true] at hg
    rcases List.mem_cons.mp ha with h | h
    · rw [h]; exact hg.1.1
    · exact ih hg.2 a h

/-- For a consistent attempt list, the flag after the last attempt is true
exactly when the last attempt succeeded (or the list is empty and the
initial flag was true). -/
theorem lastConnAux_spec : ∀ (L : List Att), (∀ a ∈ L, consistentAtt a = true) →
    ∀ c0 : Bool, (lastConnAux c0 L = true ↔
      (L.getLast?.map Att.out = some Outcome.ok ∨ (L = [] ∧ c0 = true))) := by
  intro L
  induction L with
  | nil =>
    intro _ c0
    simp [lastConnAux]
  | cons b rest ih =>
    intro hcon c0
    have hb : consistentAtt b = true := hcon b (List.mem_cons_self b rest)
    have hrest : ∀ a ∈ rest, consistentAtt a = true :=
      fun a ha => hcon a (List.mem_cons_of_mem b ha)
    simp only [consistentAtt, beq_iff_eq] at hb
    cases rest with
    | nil =>
      simp only [lastConnAux, List.getLast?_singleton]
      rw [hb]
      by_cases hout : b.out = Outcome.ok <;> simp [hout]
    | cons e l =>
      rw [show lastConnAux c0 (b :: e :: l) = lastConnAux b.conn (e :: l) from rfl,
        List.getLast?_cons_cons, ih hrest b.conn]
      simp

/-- C5 counterexample: against a coordinator that accepts the registration
and then answers the first probe with an HTTP error status, the run
crashes with `connected` frozen at true although the most recent attempt
(the probe) did not succeed — the claim as stated is false. -/
theorem connected_survives_crashed_probe :
    ¬ connectedIffLastOk
      (register_model_to_server (fun t => if t = 0 then Outcome.ok else Outcome.httpError)
        (fun _ => false) 4 false 0 0) := by decide

/-- C5 (amended): for every run in which each attempt outcome is a success
or a transient network failure (no HTTP error statuses, which crash the
loops instead — see the counterexample), the connection flag recorded
after every attempt equals that attempt's success, a failed probe is never
followed by another probe without a registration attempt in between, and
the final state is Connected iff the most recent attempt succeeded. -/
theorem connected_iff_last_attempt_ok (oracle : Nat → Outcome) (sh : Nat → Bool)
    (fuel t d : Nat) (hno : ∀ u, oracle u ≠ Outcome.httpError) :
    goodAtt (attemptsOf (register_model_to_server oracle sh fuel false t d).trace) = true
    ∧ connectedIffLastOk (register_model_to_server oracle sh fuel false t d) := by
  obtain ⟨hg, hc⟩ := runLoop_attempts_invariant oracle sh hno fuel Phase.registering false t d
  rw [register_model_to_server]
  refine ⟨hg, ?_⟩
  unfold connectedIffLastOk
  rw [hc, lastConnAux_spec _ (goodAtt_consistent _ hg) false]
  simp

/-- Witness for C5 (amended) at a coordinator that accepts everything. -/
theorem connected_iff_last_attempt_ok_witness :
    goodAtt (attemptsOf (register_model_to_server (fun _ => Outcome.ok)
      (fun _ => false) 3 false 0 0).trace) = true
    ∧ connectedIffLastOk (register_model_to_server (fun _ => Outcome.ok)
      (fun _ => false) 3 false 0 0) :=
  connected_iff_last_attempt_ok (fun _ => Outcome.ok) (fun _ => false) 3 0 0
    (fun _ h => Outcome.noConfusion h)
